import Mathlib

/-!
Shallow embedding of the chiaroscuro per-band granular time-stretch audio
engine, together with theorems about its grain scheduling, read-cursor
arithmetic, band-indexed control API, energy analysis and feedback safety
clamp.

Numbers held in JavaScript variables are modelled as rationals (`ℚ`);
buffer indices and sizes as naturals/integers.  Audio-node automation
calls (`cancelScheduledValues`, `setValueAtTime`,
`linearRampToValueAtTime`) are recorded as explicit event lists.
-/

/-- JavaScript remainder `a % b` as used on the circular-buffer positions in
this codebase.  Every use site has a non-negative dividend and a positive
divisor, where the JS float remainder agrees with `a - b * ⌊a / b⌋`. -/
def jsMod (a b : ℚ) : ℚ := a - b * (⌊a / b⌋ : ℚ)

/-- In-place update of a single list element (JS `array[i] = f(array[i])`);
indices past the end leave the list unchanged. -/
def updateAt {α : Type} : List α → ℕ → (α → α) → List α
  | [], _, _ => []
  | a :: as, 0, f => f a :: as
  | a :: as, n + 1, f => a :: updateAt as n f

namespace SimplePaulstretch

/-- Descriptor of one emitted grain: where in the circular buffer it starts
reading and how many samples it spans.  (The Hann window and the per-grain
gain `1/√grainOverlap` only scale sample amplitudes and are not recorded.) -/
structure Grain where
  readPos : ℚ
  lengthSamples : ℤ
  startTime : ℚ
deriving DecidableEq

/-- State of `SimplePaulstretch` (src/lib/SimplePaulstretch.js).
`grains` keeps the start times of tracked grains. -/
structure State where
  sampleRate : ℕ
  bufferSize : ℕ
  buffer : ℕ → ℚ
  writeIndex : ℕ
  bufferFilled : ℕ
  grainSize : ℚ
  stretchFactor : ℚ
  grainOverlap : ℚ
  readPosition : ℚ
  isPlaying : Bool
  nextGrainTime : ℚ
  grains : List ℚ

/-- Source expression `Math.floor(this.grainSize * this.ctx.sampleRate)` of `createGrain`. -/
def grainSamples (s : State) : ℤ := ⌊s.grainSize * (s.sampleRate : ℚ)⌋

/-- Source expression `this.ctx.sampleRate * 0.1` — the 100 ms safety margin of `createGrain`. -/
def safeDistance (s : State) : ℚ := (s.sampleRate : ℚ) * (1 / 10)

/-- Source expression `(this.writeIndex - safeDistance + this.bufferSize) % this.bufferSize` —
computed in `createGrain` but never used afterwards in the source. -/
def maxReadPos (s : State) : ℚ :=
  jsMod ((s.writeIndex : ℚ) - safeDistance s + (s.bufferSize : ℚ)) (s.bufferSize : ℚ)

/-- How far a read position trails the live write cursor (wrapping
distance from the read position forward to `writeIndex`). -/
def distanceBehindWrite (s : State) (pos : ℚ) : ℚ :=
  jsMod ((s.writeIndex : ℚ) - pos + (s.bufferSize : ℚ)) (s.bufferSize : ℚ)

/-- Buffer index read for sample `i` of a grain starting at `readPos`:
`Math.floor(readPos + i) % this.bufferSize`. -/
def grainReadIndex (s : State) (readPos : ℚ) (i : ℕ) : ℤ :=
  ⌊readPos + (i : ℚ)⌋ % (s.bufferSize : ℤ)

/-- Embedding of `createGrain` (src/lib/SimplePaulstretch.js lines 104-155).  `jitter` is
the random term `(Math.random() - 0.5) * sampleRate * 0.05`.  The source
computes `maxReadPos` ("stay behind write position", see `maxReadPos`) at
this point but never applies it: the grain reads at the jittered position
unclamped.  Returns the new state and the emitted grain, if any. -/
def createGrain (s : State) (jitter now : ℚ) : State × Option Grain :=
  if (s.bufferFilled : ℤ) < grainSamples s * 2 then (s, none)
  else
    let readPos := jsMod (s.readPosition + jitter + (s.bufferSize : ℚ)) (s.bufferSize : ℚ)
    let advancement := (grainSamples s : ℚ) / s.stretchFactor / s.grainOverlap
    ({ s with
        readPosition := jsMod (s.readPosition + advancement) (s.bufferSize : ℚ)
        grains := (s.grains ++ [now]).filter (fun g => decide (now - s.grainSize * 2 < g)) },
     some { readPos := readPos, lengthSamples := grainSamples s, startTime := now })

/-- One polling tick of `scheduleNextGrain` at wall-clock time `now`:
if playing and the grain deadline has passed, emit a grain and schedule the
next one `grainSize / grainOverlap` later. -/
def scheduleNextGrain (s : State) (now jitter : ℚ) : State :=
  if s.isPlaying = false then s
  else if s.nextGrainTime ≤ now then
    let s1 := (createGrain s jitter now).1
    { s1 with nextGrainTime := now + s.grainSize / s.grainOverlap }
  else s

def setStretchFactor (s : State) (factor : ℚ) : State :=
  { s with stretchFactor := max 1 (min 20 factor) }

def setGrainSize (s : State) (size : ℚ) : State :=
  { s with grainSize := max (1 / 20) (min (1 / 2) size) }

def start (s : State) (now : ℚ) : State :=
  if s.isPlaying then s
  else
    { s with
        isPlaying := true
        readPosition := max 0 ((s.writeIndex : ℚ) - (s.sampleRate : ℚ) * (1 / 2))
        nextGrainTime := now }

def stop (s : State) : State :=
  { s with isPlaying := false, grains := [] }

end SimplePaulstretch

namespace BandProcessor

/-- One Web Audio gain-automation call recorded against the band's
`outputGain.gain` parameter. -/
inductive GainEvent where
  | cancelScheduled (t : ℚ)
  | setValueAt (v t : ℚ)
  | linearRampTo (v t : ℚ)
deriving DecidableEq

/-- Descriptor of one grain emitted by `generateGrain`: integer read start
in the band's circular buffer, length, and its play interval. -/
structure Grain where
  readStart : ℤ
  lengthSamples : ℤ
  startTime : ℚ
  stopTime : ℚ
deriving DecidableEq

/-- State of one `BandProcessor` (src/unnamed BandProcessor.js).
`grainTimeout` is the pending `setTimeout` delay in ms (`none` when
cleared); `gainValue` is `outputGain.gain.value`. -/
structure State where
  sampleRate : ℕ
  bufferSize : ℕ
  audioBuffer : ℕ → ℚ
  writeIndex : ℕ
  isGenerating : Bool
  grainSize : ℚ
  timeStretchFactor : ℚ
  grainTimeout : Option ℚ
  gainValue : ℚ

/-- Source expression `Math.floor(grainDuration * this.ctx.sampleRate)` of `generateGrain`. -/
def grainSamples (s : State) : ℤ := ⌊s.grainSize * (s.sampleRate : ℚ)⌋

/-- Embedding of `generateGrain`: if generating, read `grainSamples` samples ending at the
write cursor, emit them as a grain, and schedule the next call after
`(grainDuration / this.timeStretchFactor) * 1000` ms.  There is no
captured-history check: a grain is emitted on every generating tick. -/
def generateGrain (s : State) (now : ℚ) : State × Option Grain :=
  if s.isGenerating = false then (s, none)
  else
    let gs := grainSamples s
    let readIndex : ℤ := ((s.writeIndex : ℤ) - gs + (s.bufferSize : ℤ)) % (s.bufferSize : ℤ)
    let nextGrainDelay : ℚ := s.grainSize / s.timeStretchFactor * 1000
    ({ s with grainTimeout := some nextGrainDelay },
     some { readStart := readIndex, lengthSamples := gs,
            startTime := now, stopTime := now + s.grainSize })

/-- Embedding of `updateTimeStretch`: clamp the factor into `[1, 8]`. -/
def updateTimeStretch (s : State) (factor : ℚ) : State :=
  { s with timeStretchFactor := max 1 (min 8 factor) }

/-- Embedding of `startGrainSynthesis`: when already generating only the stretch factor
is updated; otherwise fade the output gain in to 0.12 over 50 ms and begin
generating grains. -/
def startGrainSynthesis (s : State) (factor now : ℚ) : State × List GainEvent × Option Grain :=
  if s.isGenerating then
    ({ s with timeStretchFactor := max 1 (min 8 factor) }, ([], none))
  else
    let s1 := { s with isGenerating := true, timeStretchFactor := max 1 (min 8 factor) }
    let events := [GainEvent.cancelScheduled now, GainEvent.setValueAt s.gainValue now,
                   GainEvent.linearRampTo (12 / 100) (now + 5 / 100)]
    let r := generateGrain s1 now
    (r.1, (events, r.2))

/-- Embedding of `stopGrainSynthesis`: a no-op when idle; otherwise clear the generating
flag and the pending grain timeout, then schedule a linear fade of the
output gain to 0 over 200 ms. -/
def stopGrainSynthesis (s : State) (now : ℚ) : State × List GainEvent :=
  if s.isGenerating = false then (s, [])
  else
    ({ s with isGenerating := false, grainTimeout := none },
     [GainEvent.cancelScheduled now, GainEvent.setValueAt s.gainValue now,
      GainEvent.linearRampTo 0 (now + 2 / 10)])

end BandProcessor

namespace FrequencyBands

/-- One entry of `FREQUENCY_BANDS` (src/lib/FrequencyBands.js). -/
structure BandInfo where
  minHz : ℚ
  maxHz : ℚ
  color : ℕ
  name : String
deriving DecidableEq

/-- The 24 frequency bands of src/lib/FrequencyBands.js. -/
def FREQUENCY_BANDS : List BandInfo :=
  [⟨20, 60, 0, "Sub-bass"⟩,
   ⟨60, 120, 10, "Bass 1"⟩, ⟨120, 180, 15, "Bass 2"⟩, ⟨180, 250, 20, "Bass 3"⟩,
   ⟨250, 350, 30, "Low-mid 1"⟩, ⟨350, 450, 35, "Low-mid 2"⟩, ⟨450, 500, 40, "Low-mid 3"⟩,
   ⟨500, 750, 50, "Mid 1"⟩, ⟨750, 1000, 60, "Mid 2"⟩, ⟨1000, 1250, 80, "Mid 3"⟩,
   ⟨1250, 1500, 100, "Mid 4"⟩, ⟨1500, 1750, 120, "Mid 5"⟩, ⟨1750, 2000, 140, "Mid 6"⟩,
   ⟨2000, 2500, 160, "High-mid 1"⟩, ⟨2500, 3000, 180, "High-mid 2"⟩,
   ⟨3000, 3500, 200, "High-mid 3"⟩, ⟨3500, 4000, 210, "High-mid 4"⟩,
   ⟨4000, 5000, 220, "Presence 1"⟩, ⟨5000, 6000, 230, "Presence 2"⟩,
   ⟨6000, 7000, 240, "Presence 3"⟩, ⟨7000, 8000, 250, "Presence 4"⟩,
   ⟨8000, 12000, 270, "Air 1"⟩, ⟨12000, 16000, 290, "Air 2"⟩, ⟨16000, 20000, 310, "Air 3"⟩]

/-- FFT bin range of one band. -/
structure BinRange where
  startBin : ℕ
  endBin : ℕ
deriving DecidableEq

/-- Embedding of `frequencyToBin(minFreq, maxFreq, sampleRate, fftSize)`. -/
def frequencyToBin (minFreq maxFreq sampleRate : ℚ) (fftSize : ℕ) : BinRange :=
  let nyquist := sampleRate / 2
  let binCount : ℕ := fftSize / 2
  let startBin : ℤ := ⌊minFreq / nyquist * (binCount : ℚ)⌋
  let endBin : ℤ := ⌈maxFreq / nyquist * (binCount : ℚ)⌉
  { startBin := (max 0 startBin).toNat,
    endBin := (min ((binCount : ℤ) - 1) endBin).toNat }

/-- Embedding of `calculateBandEnergy(frequencyData, startBin, endBin)`: the average of
the byte-valued bins `startBin..endBin`, or 0 when `startBin >= endBin`.
Out-of-range accesses into `frequencyData` are modelled as 0. -/
def calculateBandEnergy (frequencyData : List ℕ) (startBin endBin : ℕ) : ℚ :=
  if endBin ≤ startBin then 0
  else
    (((List.range (endBin + 1 - startBin)).map
        (fun i => ((frequencyData.getD (startBin + i) 0 : ℕ) : ℚ))).sum) /
      ((endBin + 1 - startBin : ℕ) : ℚ)

/-- Embedding of `smoothValue(currentValue, targetValue, smoothing)`. -/
def smoothValue (currentValue targetValue smoothing : ℚ) : ℚ :=
  currentValue + (targetValue - currentValue) * (1 - smoothing)

end FrequencyBands

namespace AudioEngine

open FrequencyBands

/-- Engine-side per-band state: the list of 24 `BandProcessor`s. -/
structure State where
  bandProcessors : List BandProcessor.State

/-- Embedding of `startBandSynthesis(bandIndex, timeStretchFactor)`.  The returned flag
records whether the call logged an invalid-band-index error to the console
(`console.error`) — the only rejection signal present in the source. -/
def startBandSynthesis (e : State) (bandIndex : ℤ) (factor now : ℚ) : State × Bool :=
  if bandIndex < 0 ∨ (e.bandProcessors.length : ℤ) ≤ bandIndex then (e, true)
  else
    ({ bandProcessors := updateAt e.bandProcessors bandIndex.toNat
        (fun b => (BandProcessor.startGrainSynthesis b factor now).1) }, false)

/-- Embedding of `updateBandStretch(bandIndex, timeStretchFactor)`.  Out-of-range
indices take a bare `return` with no `console.error`: the flag is `false`
on both paths. -/
def updateBandStretch (e : State) (bandIndex : ℤ) (factor : ℚ) : State × Bool :=
  if bandIndex < 0 ∨ (e.bandProcessors.length : ℤ) ≤ bandIndex then (e, false)
  else
    ({ bandProcessors := updateAt e.bandProcessors bandIndex.toNat
        (fun b => BandProcessor.updateTimeStretch b factor) }, false)

/-- Embedding of `stopBandSynthesis(bandIndex)`, with the same console-error flag as
`startBandSynthesis`. -/
def stopBandSynthesis (e : State) (bandIndex : ℤ) (now : ℚ) : State × Bool :=
  if bandIndex < 0 ∨ (e.bandProcessors.length : ℤ) ≤ bandIndex then (e, true)
  else
    ({ bandProcessors := updateAt e.bandProcessors bandIndex.toNat
        (fun b => (BandProcessor.stopGrainSynthesis b now).1) }, false)

/-- Tiny heap of JS arrays, addressed by index, to express which array
object `getBandEnergies` returns (reference semantics). -/
structure Heap where
  arrays : List (List ℚ)

def heapRead (h : Heap) (r : ℕ) : List ℚ := h.arrays.getD r []

def heapWrite (h : Heap) (r : ℕ) (v : List ℚ) : Heap :=
  ⟨updateAt h.arrays r (fun _ => v)⟩

/-- Analysis-side engine state: the two per-band arrays `bandEnergies` and
`smoothedEnergies` live in the heap and the engine holds references to
them, exactly as the JS object holds the two array objects. -/
structure AnalyzerState where
  heap : Heap
  bandBins : List BinRange
  bandEnergiesRef : ℕ
  smoothedRef : ℕ

/-- The per-band raw energies `calculateBandEnergy(...) / 255` written into
`this.bandEnergies` by the loop of `getBandEnergies`. -/
def computeBandEnergies (bins : List BinRange) (frequencyData : List ℕ) : List ℚ :=
  (List.range bins.length).map (fun i =>
    calculateBandEnergy frequencyData (bins.getD i ⟨0, 0⟩).startBin (bins.getD i ⟨0, 0⟩).endBin
      / 255)

/-- The smoothed energies written into `this.smoothedEnergies` by the loop
of `getBandEnergies`: `smoothValue(smoothed[i], raw[i]/255, 0.7)`. -/
def computeSmoothed (bins : List BinRange) (frequencyData : List ℕ) (old : List ℚ) : List ℚ :=
  (List.range bins.length).map (fun i =>
    smoothValue (old.getD i 0)
      (calculateBandEnergy frequencyData (bins.getD i ⟨0, 0⟩).startBin
          (bins.getD i ⟨0, 0⟩).endBin / 255)
      (7 / 10))

/-- Embedding of `getBandEnergies()` on the initialized engine.  `frequencyData` is the
byte frequency snapshot delivered by the analyser for this call.  When the
band-bin table is empty the internal array is returned untouched;
otherwise both internal arrays are updated in place.  The second component
is the reference to the array object the caller receives: in the source it
is `return this.smoothedEnergies;` on both paths. -/
def getBandEnergies (a : AnalyzerState) (frequencyData : List ℕ) : AnalyzerState × ℕ :=
  if a.bandBins.length = 0 then (a, a.smoothedRef)
  else
    let old := heapRead a.heap a.smoothedRef
    let raw := computeBandEnergies a.bandBins frequencyData
    let sm := computeSmoothed a.bandBins frequencyData old
    ({ a with
        heap := heapWrite (heapWrite a.heap a.bandEnergiesRef raw) a.smoothedRef sm },
     a.smoothedRef)

/-- The engine's band-bin table: `FREQUENCY_BANDS.map(band =>
frequencyToBin(band.min, band.max, sampleRate, 4096))` (fftSize = 4096). -/
def engineBandBins (sampleRate : ℚ) : List BinRange :=
  FREQUENCY_BANDS.map (fun b => frequencyToBin b.minHz b.maxHz sampleRate 4096)

end AudioEngine

namespace FeedbackNetwork

/-- The `FeedbackNetwork` control state: the targets most recently requested
for the feedback gain, delay time and loop filters. -/
structure State where
  feedbackGainTarget : ℚ
  delayTimeTarget : ℚ
  highpassTarget : ℚ
  lowpassTarget : ℚ
deriving DecidableEq

/-- Constructor values: gain 0, delay 0.1 s, highpass 100 Hz, lowpass 8 kHz. -/
def init : State := ⟨0, 1 / 10, 100, 8000⟩

/-- The three public setters of `FeedbackNetwork`. -/
inductive Op where
  | setFeedbackAmount (amount : ℚ)
  | setDelayTime (time : ℚ)
  | setFilterFrequencies (highpass lowpass : ℚ)

/-- Source expression `Math.max(0, Math.min(0.95, amount))` from `setFeedbackAmount`. -/
def safeAmount (amount : ℚ) : ℚ := max 0 (min (19 / 20) amount)

/-- Effect of one setter call on the stored targets. -/
def applyOp (s : State) : Op → State
  | .setFeedbackAmount amount => { s with feedbackGainTarget := safeAmount amount }
  | .setDelayTime time => { s with delayTimeTarget := time }
  | .setFilterFrequencies hp lp =>
      { s with highpassTarget := hp, lowpassTarget := lp }

/-- Run a sequence of setter calls from the constructed network. -/
def run (ops : List Op) : State := ops.foldl applyOp init

/-- Value of an AudioParam `dt` seconds after `setTargetAtTime(target, t0,
0.01)` was issued while the parameter held `v0`: exponential approach with
time constant 0.01 s. -/
noncomputable def setTargetValue (v0 target dt : ℝ) : ℝ :=
  target + (v0 - target) * Real.exp (-(dt / (1 / 100)))

/-- One step of the effective feedback-gain trajectory: the op (re)targets
the gain parameter if it is `setFeedbackAmount` (the other setters address
different parameters), then `dt` seconds elapse. -/
noncomputable def gainStep (p : ℝ × ℝ) (odt : Op × ℝ) : ℝ × ℝ :=
  match odt.1 with
  | .setFeedbackAmount amount =>
      ((setTargetValue p.1 ((safeAmount amount : ℚ) : ℝ) odt.2), ((safeAmount amount : ℚ) : ℝ))
  | _ => ((setTargetValue p.1 p.2 odt.2), p.2)

/-- Effective feedback gain (value, current target) after a timed run of
setter calls, starting from the constructed gain value 0 with target 0. -/
noncomputable def gainRun (timedOps : List (Op × ℝ)) : ℝ × ℝ :=
  timedOps.foldl gainStep (0, 0)

end FeedbackNetwork


/-! Concrete states used to instantiate the theorems below. -/

/-- An idle `BandProcessor` at a 48 kHz context (buffer 2 s = 96000
samples), as constructed, with a zero-initialized capture buffer. -/
def bp0 : BandProcessor.State :=
  { sampleRate := 48000, bufferSize := 96000, audioBuffer := fun _ => 0, writeIndex := 0,
    isGenerating := false, grainSize := 3 / 20, timeStretchFactor := 1, grainTimeout := none,
    gainValue := 0 }

/-- A generating band at stretch factor 1. -/
def bpGen1 : BandProcessor.State := { bp0 with isGenerating := true, gainValue := 12 / 100 }

/-- The same generating band, differing from `bpGen1` only in its stretch
factor (2 instead of 1). -/
def bpGen2 : BandProcessor.State := { bpGen1 with timeStretchFactor := 2 }

/-- A generating band with zero captured history: nothing has ever been
written into its circular buffer (`writeIndex = 0`, buffer all zeros). -/
def bpFresh : BandProcessor.State := { bp0 with isGenerating := true }

/-- A `SimplePaulstretch` at a 44.1 kHz context (4 s buffer = 176400
samples) with nothing captured yet. -/
def spBase : SimplePaulstretch.State :=
  { sampleRate := 44100, bufferSize := 176400, buffer := fun _ => 0, writeIndex := 0,
    bufferFilled := 0, grainSize := 3 / 20, stretchFactor := 2, grainOverlap := 6,
    readPosition := 0, isPlaying := false, nextGrainTime := 0, grains := [] }

/-- The state after the capture callback has filled the whole circular
buffer and the write cursor has wrapped back to 0, with the read cursor
at 0 — i.e. exactly at the write cursor. -/
def spWrapped : SimplePaulstretch.State :=
  { spBase with bufferFilled := 176400, isPlaying := true }

/-- Playing with zero captured history. -/
def spEmpty : SimplePaulstretch.State := { spBase with isPlaying := true }

/-- An engine with its 24 band processors, all idle. -/
def e24 : AudioEngine.State := ⟨List.replicate 24 bp0⟩

/-- A one-band engine used to instantiate the idle-stop theorem. -/
def e1idle : AudioEngine.State := ⟨[bp0]⟩

/-- A two-array heap: array 0 is `bandEnergies`, array 1 is
`smoothedEnergies`. -/
def heap0 : AudioEngine.Heap := ⟨[[0], [0]]⟩

/-- A small analyzer state (one band over bins 0..1) for exhibiting the
reference identity of `getBandEnergies`. -/
def a0 : AudioEngine.AnalyzerState := ⟨heap0, [⟨0, 1⟩], 0, 1⟩

/-- The engine analyzer heap right after initialization: both per-band
arrays hold 24 zeros. -/
def heap24 : AudioEngine.Heap := ⟨[List.replicate 24 0, List.replicate 24 0]⟩

/-- The freshly initialized engine analyzer at 48 kHz. -/
def a24 : AudioEngine.AnalyzerState := ⟨heap24, AudioEngine.engineBandBins 48000, 0, 1⟩

/-- A clipping-level analyser snapshot: all 2048 bins at the byte maximum. -/
def fdClip : List ℕ := List.replicate 2048 255

/-- Contents of the array object a caller of `getBandEnergies` receives,
read off through the returned reference. -/
def bandEnergiesResult (a : AudioEngine.AnalyzerState) (fd : List ℕ) : List ℚ :=
  AudioEngine.heapRead (AudioEngine.getBandEnergies a fd).1.heap
    (AudioEngine.getBandEnergies a fd).2

/-! Helper lemmas. -/

theorem updateAt_length {α : Type} (l : List α) (n : ℕ) (f : α → α) :
    (updateAt l n f).length = l.length := by
  induction l generalizing n with
  | nil => rfl
  | cons a as ih =>
      cases n with
      | zero => rfl
      | succ m => simp [updateAt, ih]

theorem updateAt_getD {α : Type} (l : List α) (n : ℕ) (f : α → α) (d : α)
    (h : n < l.length) : (updateAt l n f).getD n d = f (l.getD n d) := by
  induction l generalizing n with
  | nil => simp at h
  | cons a as ih =>
      cases n with
      | zero => rfl
      | succ m => simpa [updateAt] using ih m (by simpa using h)

theorem updateAt_id {α : Type} (l : List α) (n : ℕ) (f : α → α)
    (h : ∀ a ∈ l, f a = a) : updateAt l n f = l := by
  induction l generalizing n with
  | nil => rfl
  | cons a as ih =>
      cases n with
      | zero => simp [updateAt, h a (by simp)]
      | succ m => simp [updateAt, ih m (fun x hx => h x (by simp [hx]))]

theorem heapRead_heapWrite_self (h : AudioEngine.Heap) (r : ℕ) (v : List ℚ)
    (hr : r < h.arrays.length) :
    AudioEngine.heapRead (AudioEngine.heapWrite h r v) r = v := by
  simpa [AudioEngine.heapRead, AudioEngine.heapWrite] using updateAt_getD h.arrays r _ [] hr

theorem heapWrite_arrays_length (h : AudioEngine.Heap) (r : ℕ) (v : List ℚ) :
    (AudioEngine.heapWrite h r v).arrays.length = h.arrays.length :=
  updateAt_length _ _ _

theorem getD_le_255 (fd : List ℕ) (hfd : ∀ x ∈ fd, x ≤ 255) (j : ℕ) :
    fd.getD j 0 ≤ 255 := by
  rw [List.getD_eq_getElem?_getD]
  cases h : fd[j]? with
  | none => simp
  | some x => simpa using hfd x (List.getElem?_mem h)

theorem calculateBandEnergy_nonneg (fd : List ℕ) (sb eb : ℕ) :
    0 ≤ FrequencyBands.calculateBandEnergy fd sb eb := by
  unfold FrequencyBands.calculateBandEnergy
  split
  · exact le_refl 0
  · apply div_nonneg
    · apply List.sum_nonneg
      intro x hx
      rcases List.mem_map.1 hx with ⟨i, _, rfl⟩
      positivity
    · positivity

theorem calculateBandEnergy_le_255 (fd : List ℕ) (hfd : ∀ x ∈ fd, x ≤ 255) (sb eb : ℕ) :
    FrequencyBands.calculateBandEnergy fd sb eb ≤ 255 := by
  unfold FrequencyBands.calculateBandEnergy
  split
  · norm_num
  · rename_i hlt
    have hn : 0 < eb + 1 - sb := by omega
    rw [div_le_iff₀ (by exact_mod_cast hn)]
    have hb : ∀ x ∈ (List.range (eb + 1 - sb)).map
        (fun i => ((fd.getD (sb + i) 0 : ℕ) : ℚ)), x ≤ 255 := by
      intro x hx
      rcases List.mem_map.1 hx with ⟨i, _, rfl⟩
      exact_mod_cast getD_le_255 fd hfd (sb + i)
    calc ((List.range (eb + 1 - sb)).map
        (fun i => ((fd.getD (sb + i) 0 : ℕ) : ℚ))).sum
        ≤ ((List.range (eb + 1 - sb)).map
            (fun i => ((fd.getD (sb + i) 0 : ℕ) : ℚ))).length • (255 : ℚ) :=
          List.sum_le_card_nsmul _ _ hb
      _ = (255 : ℚ) * ((eb + 1 - sb : ℕ) : ℚ) := by
          simp [nsmul_eq_mul, mul_comm]

theorem getD_unit_of_mem (l : List ℚ) (hl : ∀ q ∈ l, 0 ≤ q ∧ q ≤ 1) (i : ℕ) :
    0 ≤ l.getD i 0 ∧ l.getD i 0 ≤ 1 := by
  rw [List.getD_eq_getElem?_getD]
  cases h : l[i]? with
  | none => norm_num
  | some x => simpa using hl x (List.getElem?_mem h)

theorem smoothValue_unit {cur tgt : ℚ} (hc0 : 0 ≤ cur) (hc1 : cur ≤ 1)
    (ht0 : 0 ≤ tgt) (ht1 : tgt ≤ 1) :
    0 ≤ FrequencyBands.smoothValue cur tgt (7 / 10) ∧
      FrequencyBands.smoothValue cur tgt (7 / 10) ≤ 1 := by
  unfold FrequencyBands.smoothValue
  constructor <;> nlinarith

theorem computeSmoothed_length (bins : List FrequencyBands.BinRange)
    (fd : List ℕ) (old : List ℚ) :
    (AudioEngine.computeSmoothed bins fd old).length = bins.length := by
  simp [AudioEngine.computeSmoothed]

theorem computeSmoothed_getD (bins : List FrequencyBands.BinRange)
    (fd : List ℕ) (old : List ℚ) (i : ℕ) (h : i < bins.length) :
    (AudioEngine.computeSmoothed bins fd old).getD i 0 =
      FrequencyBands.smoothValue (old.getD i 0)
        (FrequencyBands.calculateBandEnergy fd (bins.getD i ⟨0, 0⟩).startBin
          (bins.getD i ⟨0, 0⟩).endBin / 255) (7 / 10) := by
  unfold AudioEngine.computeSmoothed
  rw [List.getD_eq_getElem?_getD, List.getElem?_map, List.getElem?_range h]
  rfl

theorem computeSmoothed_unit (bins : List FrequencyBands.BinRange)
    (fd : List ℕ) (old : List ℚ) (hfd : ∀ x ∈ fd, x ≤ 255)
    (hold : ∀ q ∈ old, 0 ≤ q ∧ q ≤ 1) :
    ∀ q ∈ AudioEngine.computeSmoothed bins fd old, 0 ≤ q ∧ q ≤ 1 := by
  intro q hq
  unfold AudioEngine.computeSmoothed at hq
  rcases List.mem_map.1 hq with ⟨i, _, rfl⟩
  have hcur := getD_unit_of_mem old hold i
  have hraw0 := calculateBandEnergy_nonneg fd (bins.getD i ⟨0, 0⟩).startBin
    (bins.getD i ⟨0, 0⟩).endBin
  have hraw1 := calculateBandEnergy_le_255 fd hfd (bins.getD i ⟨0, 0⟩).startBin
    (bins.getD i ⟨0, 0⟩).endBin
  exact smoothValue_unit hcur.1 hcur.2 (by positivity) (by linarith)

theorem engineBandBins_length (sampleRate : ℚ) :
    (AudioEngine.engineBandBins sampleRate).length = 24 := by
  simp [AudioEngine.engineBandBins, FrequencyBands.FREQUENCY_BANDS]

theorem safeAmount_nonneg (x : ℚ) : 0 ≤ FeedbackNetwork.safeAmount x :=
  le_max_left 0 _

theorem safeAmount_le (x : ℚ) : FeedbackNetwork.safeAmount x ≤ 19 / 20 :=
  max_le (by norm_num) (min_le_left _ _)

theorem foldl_applyOp_target (l : List FeedbackNetwork.Op) :
    ∀ s : FeedbackNetwork.State,
      0 ≤ s.feedbackGainTarget → s.feedbackGainTarget ≤ 19 / 20 →
      0 ≤ (l.foldl FeedbackNetwork.applyOp s).feedbackGainTarget ∧
        (l.foldl FeedbackNetwork.applyOp s).feedbackGainTarget ≤ 19 / 20 := by
  induction l with
  | nil => intro s h0 h1; exact ⟨h0, h1⟩
  | cons op rest ih =>
      intro s h0 h1
      rw [List.foldl_cons]
      cases op with
      | setFeedbackAmount amount =>
          exact ih _ (safeAmount_nonneg amount) (safeAmount_le amount)
      | setDelayTime time => exact ih _ h0 h1
      | setFilterFrequencies hp lp => exact ih _ h0 h1

theorem setTargetValue_lt_ceiling (v tg dt : ℝ) (hv : v < 19 / 20)
    (htg : tg ≤ 19 / 20) (hdt : 0 ≤ dt) :
    FeedbackNetwork.setTargetValue v tg dt < 19 / 20 := by
  unfold FeedbackNetwork.setTargetValue
  set e : ℝ := Real.exp (-(dt / (1 / 100))) with he
  have he0 : 0 < e := Real.exp_pos _
  have he1 : e ≤ 1 := by
    rw [he]
    calc Real.exp (-(dt / (1 / 100))) ≤ Real.exp 0 :=
          Real.exp_le_exp.2 (neg_nonpos.2 (by positivity))
      _ = 1 := Real.exp_zero
  nlinarith [mul_pos (sub_pos.2 hv) he0, mul_nonneg (sub_nonneg.2 htg) (sub_nonneg.2 he1)]

theorem safeAmount_cast_le (x : ℚ) :
    ((FeedbackNetwork.safeAmount x : ℚ) : ℝ) ≤ 19 / 20 := by
  rw [show ((19 : ℝ) / 20) = ((19 / 20 : ℚ) : ℝ) by norm_num]
  exact Rat.cast_le.2 (safeAmount_le x)

theorem foldl_gainStep_lt (l : List (FeedbackNetwork.Op × ℝ)) :
    ∀ p : ℝ × ℝ, p.1 < 19 / 20 → p.2 ≤ 19 / 20 → (∀ q ∈ l, 0 ≤ q.2) →
      (l.foldl FeedbackNetwork.gainStep p).1 < 19 / 20 ∧
        (l.foldl FeedbackNetwork.gainStep p).2 ≤ 19 / 20 := by
  induction l with
  | nil => intro p h1 h2 _; exact ⟨h1, h2⟩
  | cons q rest ih =>
      intro p h1 h2 hq
      rw [List.foldl_cons]
      have hdt : 0 ≤ q.2 := hq q (by simp)
      have hrest : ∀ r ∈ rest, 0 ≤ r.2 := fun r hr => hq r (by simp [hr])
      rcases q with ⟨op, dt⟩
      cases op with
      | setFeedbackAmount amount =>
          simp only [FeedbackNetwork.gainStep]
          exact ih _
            (setTargetValue_lt_ceiling _ _ _ h1 (safeAmount_cast_le amount) hdt)
            (safeAmount_cast_le amount) hrest
      | setDelayTime time =>
          simp only [FeedbackNetwork.gainStep]
          exact ih _ (setTargetValue_lt_ceiling _ _ _ h1 h2 hdt) h2 hrest
      | setFilterFrequencies hp lp =>
          simp only [FeedbackNetwork.gainStep]
          exact ih _ (setTargetValue_lt_ceiling _ _ _ h1 h2 hdt) h2 hrest

/-! Claim theorems. -/

/-- C10: calling `stopGrainSynthesis` on a `BandProcessor` that is not
currently synthesizing is a complete no-op — the state (including
`isGenerating`, `timeStretchFactor`, `grainTimeout` and the output gain's
value) is returned unchanged and no gain automation event is scheduled —
and `stopBandSynthesis` on an in-range band of an engine whose bands are
all idle leaves the engine state unchanged. -/
theorem C10_stop_idle_band_noop (s : BandProcessor.State) (now : ℚ)
    (hs : s.isGenerating = false)
    (e : AudioEngine.State) (i : ℤ) (enow : ℚ)
    (hi : 0 ≤ i) (hlen : i < (e.bandProcessors.length : ℤ))
    (hb : ∀ b ∈ e.bandProcessors, b.isGenerating = false) :
    BandProcessor.stopGrainSynthesis s now = (s, []) ∧
    AudioEngine.stopBandSynthesis e i enow = (e, false) := by
  constructor
  · simp [BandProcessor.stopGrainSynthesis, hs]
  · have hcond : ¬ (i < 0 ∨ (e.bandProcessors.length : ℤ) ≤ i) :=
      not_or.2 ⟨not_lt.2 hi, not_le.2 hlen⟩
    rw [AudioEngine.stopBandSynthesis, if_neg hcond]
    have hupd : updateAt e.bandProcessors i.toNat
        (fun b => (BandProcessor.stopGrainSynthesis b enow).1) = e.bandProcessors := by
      apply updateAt_id
      intro b hbmem
      simp [BandProcessor.stopGrainSynthesis, hb b hbmem]
    rw [hupd]

/-- C10 witness: stopping the idle band of a one-band engine at a concrete
state changes nothing. -/
theorem C10_witness :
    (bp0.isGenerating = false ∧ (0 : ℤ) ≤ 0 ∧
      (0 : ℤ) < (e1idle.bandProcessors.length : ℤ) ∧
      (∀ b ∈ e1idle.bandProcessors, b.isGenerating = false)) ∧
    (BandProcessor.stopGrainSynthesis bp0 0 = (bp0, []) ∧
      AudioEngine.stopBandSynthesis e1idle 0 0 = (e1idle, false)) :=
  ⟨⟨rfl, le_refl 0, by simp [e1idle], by simp [e1idle, bp0]⟩,
   C10_stop_idle_band_noop bp0 0 rfl e1idle 0 0 (le_refl 0)
     (by simp [e1idle]) (by simp [e1idle, bp0])⟩

/-- C5 counterexample: on the initialized engine (24 band processors) the
call `updateBandStretch(24, 1.5)` is out of range.  The claim says every
band-indexed operation signals an invalid-argument condition; the only
invalid-argument signal in the source is the `console.error` log (recorded
as the returned flag), and `updateBandStretch` rejects silently with no
such signal — the flag is `false` — while the state is unchanged. -/
theorem C5_counterexample :
    e24.bandProcessors.length = 24 ∧
    AudioEngine.updateBandStretch e24 24 (3 / 2) = (e24, false) := by
  constructor
  · simp [e24]
  · rw [AudioEngine.updateBandStretch, if_pos]
    right
    simp [e24]

/-- C5 amended: for every `bandIndex` outside `[0, 24)` each of the three
band-indexed operations rejects the call and leaves the engine state —
including all 24 `BandProcessor`s — completely unchanged;
`startBandSynthesis` and `stopBandSynthesis` log an invalid-index error to
the console, while `updateBandStretch` rejects silently. -/
theorem C5_out_of_range_rejected (e : AudioEngine.State) (i : ℤ) (f now : ℚ)
    (h24 : e.bandProcessors.length = 24) (hi : i < 0 ∨ 24 ≤ i) :
    AudioEngine.startBandSynthesis e i f now = (e, true) ∧
    AudioEngine.updateBandStretch e i f = (e, false) ∧
    AudioEngine.stopBandSynthesis e i now = (e, true) := by
  have hcond : i < 0 ∨ (e.bandProcessors.length : ℤ) ≤ i := by
    rcases hi with h | h
    · exact Or.inl h
    · exact Or.inr (by rw [h24]; exact_mod_cast h)
  refine ⟨?_, ?_, ?_⟩
  · rw [AudioEngine.startBandSynthesis, if_pos hcond]
  · rw [AudioEngine.updateBandStretch, if_pos hcond]
  · rw [AudioEngine.stopBandSynthesis, if_pos hcond]

/-- C5 witness: index 24 on the 24-band engine is rejected by all three
operations without any state change. -/
theorem C5_witness :
    (e24.bandProcessors.length = 24 ∧ ((24 : ℤ) < 0 ∨ 24 ≤ (24 : ℤ))) ∧
    (AudioEngine.startBandSynthesis e24 24 1 0 = (e24, true) ∧
      AudioEngine.updateBandStretch e24 24 1 = (e24, false) ∧
      AudioEngine.stopBandSynthesis e24 24 0 = (e24, true)) :=
  ⟨⟨by simp [e24], Or.inr (le_refl 24)⟩,
   C5_out_of_range_rejected e24 24 1 0 (by simp [e24]) (Or.inr (le_refl 24))⟩

/-- C8 counterexample: a concrete `getBandEnergies` call returns the
reference to the engine's internal `smoothedEnergies` array itself, so
writing through the returned array replaces the engine's stored energies
(from `[3/17]` to `[9]`) — the returned value is not an independent
snapshot. -/
theorem C8_counterexample :
    (AudioEngine.getBandEnergies a0 [200, 100]).2 = a0.smoothedRef ∧
    AudioEngine.heapRead (AudioEngine.getBandEnergies a0 [200, 100]).1.heap
        a0.smoothedRef = [3 / 17] ∧
    AudioEngine.heapRead
        (AudioEngine.heapWrite (AudioEngine.getBandEnergies a0 [200, 100]).1.heap
          (AudioEngine.getBandEnergies a0 [200, 100]).2 [9])
        a0.smoothedRef = [9] ∧
    ((9 : ℚ) ≠ 3 / 17) := by
  refine ⟨rfl, ?_, ?_, by norm_num⟩
  · norm_num [AudioEngine.getBandEnergies, AudioEngine.computeBandEnergies,
      AudioEngine.computeSmoothed, AudioEngine.heapRead, AudioEngine.heapWrite,
      FrequencyBands.calculateBandEnergy, FrequencyBands.smoothValue,
      a0, heap0, updateAt, List.range_succ]
  · norm_num [AudioEngine.getBandEnergies, AudioEngine.computeBandEnergies,
      AudioEngine.computeSmoothed, AudioEngine.heapRead, AudioEngine.heapWrite,
      FrequencyBands.calculateBandEnergy, FrequencyBands.smoothValue,
      a0, heap0, updateAt, List.range_succ]

/-- C8 amended: `getBandEnergies` returns the engine's internal
`smoothedEnergies` array by reference — the returned array reference is
identical to the engine's stored reference on every call — so mutations
through the returned array are mutations of the engine's state, and later
calls overwrite the array previously handed out. -/
theorem C8_returns_internal_reference (a : AudioEngine.AnalyzerState) (fd : List ℕ) :
    (AudioEngine.getBandEnergies a fd).2 = a.smoothedRef ∧
    (AudioEngine.getBandEnergies a fd).1.smoothedRef = a.smoothedRef := by
  unfold AudioEngine.getBandEnergies
  split <;> simp

/-- C1 counterexample: two `BandProcessor` states identical except for
their stretch factors (1 and 2, both within `[1, 8]`) schedule their next
grain after different wall-clock delays (150 ms versus 75 ms): in
`BandProcessor.generateGrain` the delay is `grainSize / stretchFactor`,
not the stretch-independent `grainSize / overlapFactor` of the claim. -/
theorem C1_counterexample :
    bpGen2 = { bpGen1 with timeStretchFactor := 2 } ∧
    1 ≤ bpGen1.timeStretchFactor ∧ bpGen1.timeStretchFactor ≤ 8 ∧
    1 ≤ bpGen2.timeStretchFactor ∧ bpGen2.timeStretchFactor ≤ 8 ∧
    (BandProcessor.generateGrain bpGen1 0).1.grainTimeout = some 150 ∧
    (BandProcessor.generateGrain bpGen2 0).1.grainTimeout = some 75 ∧
    ((150 : ℚ) ≠ 75) := by
  refine ⟨rfl, by norm_num [bpGen1, bp0], by norm_num [bpGen1, bp0],
    by norm_num [bpGen2, bpGen1, bp0], by norm_num [bpGen2, bpGen1, bp0], ?_, ?_, by norm_num⟩
  · norm_num [BandProcessor.generateGrain, bpGen1, bp0]
  · norm_num [BandProcessor.generateGrain, bpGen2, bpGen1, bp0]

/-- C1 amended: in `SimplePaulstretch` the wall-clock delay between grain
emissions is `grainSize / grainOverlap`, independent of the stretch factor
(the same for every modified stretch factor); in `BandProcessor`, however,
the next grain is scheduled after `grainSize / timeStretchFactor` seconds
(1000 × that in ms), which varies with the stretch factor. -/
theorem C1_grain_interval_amended (s : SimplePaulstretch.State) (now jitter f : ℚ)
    (hp : s.isPlaying = true) (ht : s.nextGrainTime ≤ now)
    (t : BandProcessor.State) (tnow : ℚ) (hg : t.isGenerating = true) :
    (SimplePaulstretch.scheduleNextGrain s now jitter).nextGrainTime =
        now + s.grainSize / s.grainOverlap ∧
    (SimplePaulstretch.scheduleNextGrain { s with stretchFactor := f }
        now jitter).nextGrainTime = now + s.grainSize / s.grainOverlap ∧
    (BandProcessor.generateGrain t tnow).1.grainTimeout =
        some (t.grainSize / t.timeStretchFactor * 1000) := by
  refine ⟨?_, ?_, ?_⟩
  · simp [SimplePaulstretch.scheduleNextGrain, hp, ht]
  · simp [SimplePaulstretch.scheduleNextGrain, hp, ht]
  · simp [BandProcessor.generateGrain, hg]

/-- C1 witness: a concrete playing `SimplePaulstretch` at its deadline and
a concrete generating band instantiate the amended interval facts. -/
theorem C1_witness :
    (spEmpty.isPlaying = true ∧ spEmpty.nextGrainTime ≤ 0 ∧ bpGen1.isGenerating = true) ∧
    ((SimplePaulstretch.scheduleNextGrain spEmpty 0 0).nextGrainTime =
        0 + spEmpty.grainSize / spEmpty.grainOverlap ∧
      (SimplePaulstretch.scheduleNextGrain { spEmpty with stretchFactor := 5 }
          0 0).nextGrainTime = 0 + spEmpty.grainSize / spEmpty.grainOverlap ∧
      (BandProcessor.generateGrain bpGen1 0).1.grainTimeout =
        some (bpGen1.grainSize / bpGen1.timeStretchFactor * 1000)) :=
  ⟨⟨rfl, le_refl 0, rfl⟩,
   C1_grain_interval_amended spEmpty 0 0 5 rfl (le_refl 0) bpGen1 0 rfl⟩

/-- C9 counterexample: stopping a concrete synthesizing band at time 0
ramps the gain linearly to zero reaching it at 0.2 s, but the generating
flag and the pending grain timeout are cleared at the stop call itself —
a tick at 0.1 s (mid-fade) emits nothing — so grain emission is cancelled
before the fade has run, not after it completes. -/
theorem C9_counterexample :
    bpGen1.isGenerating = true ∧
    BandProcessor.stopGrainSynthesis bpGen1 0 =
      ({ bpGen1 with isGenerating := false, grainTimeout := none },
       [BandProcessor.GainEvent.cancelScheduled 0,
        BandProcessor.GainEvent.setValueAt (12 / 100) 0,
        BandProcessor.GainEvent.linearRampTo 0 (0 + 2 / 10)]) ∧
    (BandProcessor.generateGrain
        (BandProcessor.stopGrainSynthesis bpGen1 0).1 (1 / 10)).2 = none ∧
    ((0 : ℚ) < 0 + 2 / 10) := by
  refine ⟨rfl, ?_, ?_, by norm_num⟩
  · norm_num [BandProcessor.stopGrainSynthesis, bpGen1, bp0]
  · norm_num [BandProcessor.stopGrainSynthesis, BandProcessor.generateGrain, bpGen1, bp0]

/-- C9 amended: stopping a synthesizing band schedules a linear ramp of
the output gain from its current value at the stop time down to zero at
0.2 s later (no instantaneous jump), but grain emission is halted
immediately at the stop call — the generating flag is cleared and the
pending grain timeout cancelled before the fade runs, and no tick during
or after the fade emits a grain. -/
theorem C9_stop_fade_amended (s : BandProcessor.State) (now : ℚ)
    (h : s.isGenerating = true) :
    (BandProcessor.stopGrainSynthesis s now).2 =
      [BandProcessor.GainEvent.cancelScheduled now,
       BandProcessor.GainEvent.setValueAt s.gainValue now,
       BandProcessor.GainEvent.linearRampTo 0 (now + 2 / 10)] ∧
    (BandProcessor.stopGrainSynthesis s now).1.isGenerating = false ∧
    (BandProcessor.stopGrainSynthesis s now).1.grainTimeout = none ∧
    (∀ tmid : ℚ, (BandProcessor.generateGrain
        (BandProcessor.stopGrainSynthesis s now).1 tmid).2 = none) := by
  refine ⟨?_, ?_, ?_, ?_⟩ <;>
    simp [BandProcessor.stopGrainSynthesis, BandProcessor.generateGrain, h]

/-- C9 witness: the amended stop behaviour at a concrete generating band. -/
theorem C9_witness :
    (bpGen1.isGenerating = true) ∧
    ((BandProcessor.stopGrainSynthesis bpGen1 0).2 =
      [BandProcessor.GainEvent.cancelScheduled 0,
       BandProcessor.GainEvent.setValueAt bpGen1.gainValue 0,
       BandProcessor.GainEvent.linearRampTo 0 (0 + 2 / 10)] ∧
    (BandProcessor.stopGrainSynthesis bpGen1 0).1.isGenerating = false ∧
    (BandProcessor.stopGrainSynthesis bpGen1 0).1.grainTimeout = none ∧
    (∀ tmid : ℚ, (BandProcessor.generateGrain
        (BandProcessor.stopGrainSynthesis bpGen1 0).1 tmid).2 = none)) :=
  ⟨rfl, C9_stop_fade_amended bpGen1 0 rfl⟩

/-- C2: whenever a grain is emitted (the captured history passes the
`2 × grainSamples` guard), `createGrain` advances the stored floating-point
read cursor by exactly `grainSamples / stretchFactor / grainOverlap`
samples, up to the circular-buffer wrap (an integer multiple of
`bufferSize`), for every state — in particular for all stretch factors,
grain sizes and overlap factors, and independently of the per-grain
jitter. -/
theorem C2_read_cursor_advance (s : SimplePaulstretch.State) (jitter now : ℚ)
    (h : SimplePaulstretch.grainSamples s * 2 ≤ (s.bufferFilled : ℤ)) :
    ∃ k : ℤ, (SimplePaulstretch.createGrain s jitter now).1.readPosition =
      s.readPosition +
        (SimplePaulstretch.grainSamples s : ℚ) / s.stretchFactor / s.grainOverlap +
        (k : ℚ) * (s.bufferSize : ℚ) := by
  refine ⟨-⌊(s.readPosition +
      (SimplePaulstretch.grainSamples s : ℚ) / s.stretchFactor / s.grainOverlap) /
      (s.bufferSize : ℚ)⌋, ?_⟩
  have hng : ¬ ((s.bufferFilled : ℤ) < SimplePaulstretch.grainSamples s * 2) := not_lt.2 h
  rw [SimplePaulstretch.createGrain, if_neg hng]
  simp only [jsMod]
  push_cast
  ring

/-- C2 witness: the fully captured 44.1 kHz state (stretch 2, overlap 6)
meets the history guard and its cursor advance satisfies the formula. -/
theorem C2_witness :
    (SimplePaulstretch.grainSamples spWrapped * 2 ≤ (spWrapped.bufferFilled : ℤ)) ∧
    (∃ k : ℤ, (SimplePaulstretch.createGrain spWrapped 0 0).1.readPosition =
      spWrapped.readPosition +
        (SimplePaulstretch.grainSamples spWrapped : ℚ) / spWrapped.stretchFactor /
          spWrapped.grainOverlap +
        (k : ℚ) * (spWrapped.bufferSize : ℚ)) :=
  ⟨by norm_num [SimplePaulstretch.grainSamples, spWrapped, spBase],
   C2_read_cursor_advance spWrapped 0 0
     (by norm_num [SimplePaulstretch.grainSamples, spWrapped, spBase])⟩

/-- C4 counterexample: a `BandProcessor` with zero captured history
(`writeIndex = 0`, nothing ever written) still emits a grain on a
generating tick — `generateGrain` has no insufficient-history guard — and
schedules the next tick, contradicting the claim that a tick with fewer
than `2 × grainSamples` captured samples emits no grain and reads
nothing. -/
theorem C4_counterexample :
    bpFresh.writeIndex = 0 ∧ bpFresh.isGenerating = true ∧
    BandProcessor.generateGrain bpFresh 0 =
      ({ bpFresh with grainTimeout := some 150 },
       some { readStart := 88800, lengthSamples := 7200,
              startTime := 0, stopTime := 3 / 20 }) := by
  refine ⟨rfl, rfl, ?_⟩
  norm_num [BandProcessor.generateGrain, BandProcessor.grainSamples, bpFresh, bp0]

/-- C4 amended: in `SimplePaulstretch`, a grain tick with captured history
below `2 × grainSamples` emits no grain, reads nothing and leaves the whole
state unchanged (so the skip is isolated to that instance); in
`BandProcessor`, which tracks no captured-history count at all, every
generating tick emits a grain regardless of history (with zero history the
zero-initialized buffer yields a silent grain). -/
theorem C4_insufficient_history_amended (s : SimplePaulstretch.State) (jitter now : ℚ)
    (t : BandProcessor.State) (tnow : ℚ)
    (hs : (s.bufferFilled : ℤ) < SimplePaulstretch.grainSamples s * 2)
    (ht : t.isGenerating = true) :
    SimplePaulstretch.createGrain s jitter now = (s, none) ∧
    ((BandProcessor.generateGrain t tnow).2).isSome = true := by
  constructor
  · rw [SimplePaulstretch.createGrain, if_pos hs]
  · simp [BandProcessor.generateGrain, ht]

/-- C4 witness: a playing `SimplePaulstretch` with zero history skips its
tick unchanged, while the zero-history band still emits. -/
theorem C4_witness :
    ((spEmpty.bufferFilled : ℤ) < SimplePaulstretch.grainSamples spEmpty * 2 ∧
      bpFresh.isGenerating = true) ∧
    (SimplePaulstretch.createGrain spEmpty 0 0 = (spEmpty, none) ∧
      ((BandProcessor.generateGrain bpFresh 0).2).isSome = true) :=
  ⟨⟨by norm_num [SimplePaulstretch.grainSamples, spEmpty, spBase], rfl⟩,
   C4_insufficient_history_amended spEmpty 0 0 bpFresh 0
     (by norm_num [SimplePaulstretch.grainSamples, spEmpty, spBase]) rfl⟩

/-- C3 (code bug): with the 4 s buffer fully captured, the write cursor
wrapped to 0 and the read cursor at 0 (zero jitter), `createGrain` emits a
grain that reads at position 0 — exactly 0 samples behind the live write
cursor, far inside the 4410-sample (100 ms at 44.1 kHz) safety margin —
and the read cursor is advanced normally to 2205/4 rather than clamped to
the safe trailing position `maxReadPos = 171990`: the source computes
`maxReadPos` but never applies it. -/
theorem C3_no_clamp_evaluation :
    (SimplePaulstretch.createGrain spWrapped 0 0).2 =
      some { readPos := 0, lengthSamples := 6615, startTime := 0 } ∧
    SimplePaulstretch.safeDistance spWrapped = 4410 ∧
    SimplePaulstretch.distanceBehindWrite spWrapped 0 = 0 ∧
    ((0 : ℚ) < 4410) ∧
    SimplePaulstretch.maxReadPos spWrapped = 171990 ∧
    (SimplePaulstretch.createGrain spWrapped 0 0).1.readPosition = 2205 / 4 ∧
    ((2205 / 4 : ℚ) ≠ 171990) := by
  refine ⟨?_, ?_, ?_, by norm_num, ?_, ?_, by norm_num⟩
  · norm_num [SimplePaulstretch.createGrain, SimplePaulstretch.grainSamples,
      jsMod, spWrapped, spBase]
  · norm_num [SimplePaulstretch.safeDistance, spWrapped, spBase]
  · norm_num [SimplePaulstretch.distanceBehindWrite, jsMod, spWrapped, spBase]
  · norm_num [SimplePaulstretch.maxReadPos, SimplePaulstretch.safeDistance,
      jsMod, spWrapped, spBase]
  · norm_num [SimplePaulstretch.createGrain, SimplePaulstretch.grainSamples,
      jsMod, spWrapped, spBase]

/-- C6: for every requested amount (including 5.0 and negative values) and
after any sequence of `setFeedbackAmount`, `setDelayTime` and
`setFilterFrequencies` calls, the feedback gain target stored in the loop
lies in `[0, 0.95]`; and along any timed run of such calls the effective
feedback gain — which approaches each clamped target exponentially
(`setTargetAtTime`, time constant 0.01 s) from the constructed value 0 —
is always strictly below 0.95. -/
theorem C6_feedback_ceiling (ops : List FeedbackNetwork.Op)
    (timedOps : List (FeedbackNetwork.Op × ℝ))
    (hdt : ∀ p ∈ timedOps, 0 ≤ p.2) :
    (0 ≤ (FeedbackNetwork.run ops).feedbackGainTarget ∧
      (FeedbackNetwork.run ops).feedbackGainTarget ≤ 19 / 20) ∧
    (FeedbackNetwork.gainRun timedOps).1 < 19 / 20 := by
  constructor
  · exact foldl_applyOp_target ops FeedbackNetwork.init
      (by norm_num [FeedbackNetwork.init]) (by norm_num [FeedbackNetwork.init])
  · exact (foldl_gainStep_lt timedOps (0, 0) (by norm_num) (by norm_num) hdt).1

/-- C6 witness: requesting feedback amount 5.0 and letting one second
elapse keeps the stored target within `[0, 0.95]` and the effective gain
strictly below 0.95. -/
theorem C6_witness :
    (∀ p ∈ [(FeedbackNetwork.Op.setFeedbackAmount 5, (1 : ℝ))], 0 ≤ p.2) ∧
    ((0 ≤ (FeedbackNetwork.run
          [FeedbackNetwork.Op.setFeedbackAmount 5]).feedbackGainTarget ∧
        (FeedbackNetwork.run
          [FeedbackNetwork.Op.setFeedbackAmount 5]).feedbackGainTarget ≤ 19 / 20) ∧
      (FeedbackNetwork.gainRun
        [(FeedbackNetwork.Op.setFeedbackAmount 5, (1 : ℝ))]).1 < 19 / 20) :=
  ⟨by simp, C6_feedback_ceiling [FeedbackNetwork.Op.setFeedbackAmount 5]
    [(FeedbackNetwork.Op.setFeedbackAmount 5, (1 : ℝ))] (by simp)⟩

/-- C7: for every analyser frequency snapshot (bytes, i.e. each bin at
most 255) and every reachable smoothed array (entries in `[0, 1]`), the
array a `getBandEnergies` caller receives has exactly 24 entries, each in
`[0, 1]`, and entry `i` equals the previous smoothed value combined with
the band's bin average divided by 255 through
`smoothed + (raw - smoothed) * (1 - 0.7)`. -/
theorem C7_band_energies_spec (sampleRate : ℚ) (fd : List ℕ)
    (a : AudioEngine.AnalyzerState)
    (hbins : a.bandBins = AudioEngine.engineBandBins sampleRate)
    (hfd : ∀ x ∈ fd, x ≤ 255)
    (hold : ∀ q ∈ AudioEngine.heapRead a.heap a.smoothedRef, 0 ≤ q ∧ q ≤ 1)
    (href : a.smoothedRef < a.heap.arrays.length) :
    (bandEnergiesResult a fd).length = 24 ∧
    (∀ q ∈ bandEnergiesResult a fd, 0 ≤ q ∧ q ≤ 1) ∧
    (∀ i, i < 24 → (bandEnergiesResult a fd).getD i 0 =
      FrequencyBands.smoothValue
        ((AudioEngine.heapRead a.heap a.smoothedRef).getD i 0)
        (FrequencyBands.calculateBandEnergy fd
            ((AudioEngine.engineBandBins sampleRate).getD i ⟨0, 0⟩).startBin
            ((AudioEngine.engineBandBins sampleRate).getD i ⟨0, 0⟩).endBin / 255)
        (7 / 10)) := by
  have hlen24 : a.bandBins.length = 24 := by
    rw [hbins]; exact engineBandBins_length sampleRate
  have hne : ¬ (a.bandBins.length = 0) := by omega
  have hres : bandEnergiesResult a fd =
      AudioEngine.computeSmoothed a.bandBins fd
        (AudioEngine.heapRead a.heap a.smoothedRef) := by
    unfold bandEnergiesResult AudioEngine.getBandEnergies
    rw [if_neg hne]
    exact heapRead_heapWrite_self _ _ _
      (by rw [heapWrite_arrays_length]; exact href)
  rw [hres]
  refine ⟨by rw [computeSmoothed_length, hlen24],
    computeSmoothed_unit _ _ _ hfd hold, ?_⟩
  intro i hi
  rw [computeSmoothed_getD _ _ _ i (by omega), hbins]

/-- C7 witness: the freshly initialized 48 kHz analyzer fed a
clipping-level snapshot (all 2048 bins at 255) returns 24 values in
`[0, 1]` satisfying the smoothing formula. -/
theorem C7_witness :
    (a24.bandBins = AudioEngine.engineBandBins 48000 ∧
      (∀ x ∈ fdClip, x ≤ 255) ∧
      (∀ q ∈ AudioEngine.heapRead a24.heap a24.smoothedRef, 0 ≤ q ∧ q ≤ 1) ∧
      a24.smoothedRef < a24.heap.arrays.length) ∧
    ((bandEnergiesResult a24 fdClip).length = 24 ∧
      (∀ q ∈ bandEnergiesResult a24 fdClip, 0 ≤ q ∧ q ≤ 1) ∧
      (∀ i, i < 24 → (bandEnergiesResult a24 fdClip).getD i 0 =
        FrequencyBands.smoothValue
          ((AudioEngine.heapRead a24.heap a24.smoothedRef).getD i 0)
          (FrequencyBands.calculateBandEnergy fdClip
              ((AudioEngine.engineBandBins 48000).getD i ⟨0, 0⟩).startBin
              ((AudioEngine.engineBandBins 48000).getD i ⟨0, 0⟩).endBin / 255)
          (7 / 10))) :=
  ⟨⟨rfl, by
      intro x hx
      rw [show fdClip = List.replicate 2048 255 from rfl] at hx
      rw [List.eq_of_mem_replicate hx], by
      intro q hq
      rw [show AudioEngine.heapRead a24.heap a24.smoothedRef =
        List.replicate 24 0 from rfl] at hq
      rw [List.eq_of_mem_replicate hq]
      norm_num,
    by decide⟩,
   C7_band_energies_spec 48000 fdClip a24 rfl
     (by
       intro x hx
       rw [show fdClip = List.replicate 2048 255 from rfl] at hx
       rw [List.eq_of_mem_replicate hx])
     (by
       intro q hq
       rw [show AudioEngine.heapRead a24.heap a24.smoothedRef =
         List.replicate 24 0 from rfl] at hq
       rw [List.eq_of_mem_replicate hq]
       norm_num)
     (by decide)⟩
